import Mathlib

/-!
Shallow embedding of the orchestration core (AgentCoordinator,
WorkflowEngine, EventDispatcher) of the YourDaypilot/orchestration
repository, together with theorems settling the spec claims.

Modelling conventions:
* `str(uuid.uuid4())` identifiers are modelled by a fresh-counter field
  `next_id : Nat`; ids are `Nat`.
* `datetime.now()` timestamps are modelled by a `now : Nat` argument
  supplied to each operation.
* Python dicts with string keys (`Dict[str, Any]` payloads) are modelled
  as association lists `List (String × String)`; insertion-ordered dicts
  keyed by id are association lists with overwrite-in-place semantics
  (`setEntry`), mirroring CPython insertion-order preservation.
* Spawned coroutines (`asyncio.create_task`) are modelled explicitly: the
  coordinator state carries the list of spawned-but-not-yet-run task
  executions, and a separate step function runs one of them to completion,
  with a boolean telling whether the simulated unit of work returns or
  raises (the body of `_execute_agent_task` past its `await`).
* The `@trace_async_calls` decorator and all `trace.*` calls only log and
  re-raise, so they are semantically transparent and are not modelled.
-/

namespace Orch

/-- String-keyed payload maps (`Dict[str, Any]` in the source). -/
abbrev Payload := List (String × String)

/-- `dict.get(key)`: first (unique) binding of a key in a payload. -/
def pLookup (p : Payload) (k : String) : Option String :=
  (p.find? (fun kv => kv.1 == k)).map (fun kv => kv.2)

/-- `d[k] = v` on an insertion-ordered dict: overwrite in place if the
key exists, else append. -/
def setEntry {α : Type} (l : List (Nat × α)) (k : Nat) (v : α) : List (Nat × α) :=
  match l with
  | [] => [(k, v)]
  | kv :: rest => if kv.1 = k then (k, v) :: rest else kv :: setEntry rest k v

/-- Dict lookup on a `Nat`-keyed association list. -/
def getEntry {α : Type} (l : List (Nat × α)) (k : Nat) : Option α :=
  (l.find? (fun kv => kv.1 == k)).map (fun kv => kv.2)

/-- `del d[k]` on a `Nat`-keyed association list. -/
def delEntry {α : Type} (l : List (Nat × α)) (k : Nat) : List (Nat × α) :=
  l.filter (fun kv => !(kv.1 == k))

/-- Python `min(xs, key=k)` over a non-empty list `h :: t`: the first
element attaining the minimal key (later elements replace the running
best only on strictly smaller key). -/
def selMin {α : Type} (k : α → Int) (h : α) (t : List α) : α :=
  t.foldl (fun best a => if k a < k best then a else best) h

/-! ## AgentCoordinator (src/orchestrator/coordinator/agent_coordinator.py) -/

/-- `AgentInfo`: a registered agent's record. -/
structure AgentInfo where
  agent_id : Nat
  agent_type : String
  capabilities : List String
  status : String
  current_task : Option Nat
  tasks_completed : Nat
  tasks_failed : Nat
  registered_at : Nat
  last_heartbeat : Nat
  deriving DecidableEq

/-- An entry of the overflow `task_queue`. -/
structure QueuedTask where
  task_id : Nat
  task_type : String
  task_data : Payload
  priority : Int
  queued_at : Nat
  deriving DecidableEq

/-- A `task_results` entry (status "completed" or "failed"). -/
structure TaskResult where
  status : String
  result : Option Payload
  error : Option String
  completed_at : Option Nat
  failed_at : Option Nat
  agent_id : Nat
  deriving DecidableEq

/-- A spawned `_execute_agent_task(agent_id, task_id, task_data)`
coroutine that has not yet run. -/
structure RunningTask where
  agent_id : Nat
  task_id : Nat
  task_data : Payload
  deriving DecidableEq

/-- The mutable state of an `AgentCoordinator`. -/
structure CoordState where
  agents : List AgentInfo
  task_queue : List QueuedTask
  task_results : List (Nat × TaskResult)
  agent_load : List (Nat × Int)
  running : List RunningTask
  next_id : Nat
  deriving DecidableEq

/-- `AgentCoordinator.__init__`. -/
def initCoord : CoordState :=
  { agents := [], task_queue := [], task_results := [], agent_load := [],
    running := [], next_id := 0 }

/-- `self.agents[agent_id]` (dict lookup, iteration order = insertion order). -/
def lookupA (agents : List AgentInfo) (k : Nat) : Option AgentInfo :=
  agents.find? (fun a => a.agent_id == k)

/-- In-place mutation of the agent record with the given id. -/
def updateA (agents : List AgentInfo) (k : Nat) (f : AgentInfo → AgentInfo) :
    List AgentInfo :=
  agents.map (fun a => if a.agent_id == k then f a else a)

/-- `del self.agents[agent_id]`. -/
def removeA (agents : List AgentInfo) (k : Nat) : List AgentInfo :=
  agents.filter (fun a => !(a.agent_id == k))

/-- `self.agent_load[agent_id]` (`defaultdict(int)`: missing key reads 0). -/
def loadOf (s : CoordState) (k : Nat) : Int :=
  (getEntry s.agent_load k).getD 0

/-- `AgentCoordinator.register_agent`. -/
def register_agent (agent_type : String) (capabilities : List String)
    (now : Nat) (s : CoordState) : Nat × CoordState :=
  let aid := s.next_id
  (aid,
   { s with
     agents := s.agents ++
       [{ agent_id := aid, agent_type := agent_type,
          capabilities := capabilities, status := "idle",
          current_task := none, tasks_completed := 0, tasks_failed := 0,
          registered_at := now, last_heartbeat := now }],
     agent_load := setEntry s.agent_load aid 0,
     next_id := aid + 1 })

/-- `AgentCoordinator.unregister_agent`: no-op when the agent is unknown. -/
def unregister_agent (aid : Nat) (s : CoordState) : CoordState :=
  match lookupA s.agents aid with
  | none => s
  | some _ =>
    { s with agents := removeA s.agents aid,
             agent_load := delEntry s.agent_load aid }

/-- Agents suitable for a task: capability contains the task type and
status is idle (`assign_task`, lines 112-115). -/
def suitableAgents (s : CoordState) (task_type : String) : List AgentInfo :=
  s.agents.filter (fun a => a.capabilities.contains task_type && a.status == "idle")

/-- `AgentCoordinator.assign_task`: mints a fresh task id; if no suitable
idle agent exists the task is queued, else the least-loaded suitable agent
(first minimal in iteration order, as Python `min`) is marked busy and an
execution of the task is spawned. -/
def assign_task (task_type : String) (task_data : Payload) (priority : Int)
    (now : Nat) (s : CoordState) : Nat × CoordState :=
  let tid := s.next_id
  let s1 : CoordState := { s with next_id := s.next_id + 1 }
  match suitableAgents s1 task_type with
  | [] =>
    (tid,
     { s1 with task_queue := s1.task_queue ++
         [{ task_id := tid, task_type := task_type, task_data := task_data,
            priority := priority, queued_at := now }] })
  | a :: rest =>
    let sel := selMin (fun x => loadOf s1 x.agent_id) a rest
    (tid,
     { s1 with
       agents := updateA s1.agents sel.agent_id
         (fun ag => { ag with status := "busy", current_task := some tid }),
       agent_load := setEntry s1.agent_load sel.agent_id
         (loadOf s1 sel.agent_id + 1),
       running := s1.running ++
         [{ agent_id := sel.agent_id, task_id := tid, task_data := task_data }] })

/-- Runs the `i`-th spawned `_execute_agent_task` coroutine to completion.
`ok` tells whether the simulated unit of work (the `await` in the `try`
body) returns normally or raises with message `err`. On success the
completion bookkeeping runs and then one queued task (if any) is
re-submitted through `assign_task`; on failure only the failure
bookkeeping runs. If the owning agent was unregistered meanwhile, the
`self.agents[agent_id]` lookup raises in both the `try` and the `except`
block, so the coroutine dies without further mutation. -/
def execute_agent_task (i : Nat) (ok : Bool) (err : String) (now : Nat)
    (s : CoordState) : CoordState :=
  match s.running.get? i with
  | none => s
  | some rt =>
    let s1 : CoordState := { s with running := s.running.eraseIdx i }
    match lookupA s1.agents rt.agent_id with
    | none => s1
    | some _ =>
      if ok then
        let s2 : CoordState :=
          { s1 with
            agents := updateA s1.agents rt.agent_id
              (fun a => { a with status := "idle", current_task := none,
                                 tasks_completed := a.tasks_completed + 1 }),
            agent_load := setEntry s1.agent_load rt.agent_id
              (loadOf s1 rt.agent_id - 1),
            task_results := setEntry s1.task_results rt.task_id
              { status := "completed", result := some rt.task_data,
                error := none, completed_at := some now, failed_at := none,
                agent_id := rt.agent_id } }
        match s2.task_queue with
        | [] => s2
        | qt :: qs =>
          (assign_task qt.task_type qt.task_data qt.priority now
            { s2 with task_queue := qs }).2
      else
        { s1 with
          agents := updateA s1.agents rt.agent_id
            (fun a => { a with status := "idle", current_task := none,
                               tasks_failed := a.tasks_failed + 1 }),
          agent_load := setEntry s1.agent_load rt.agent_id
            (loadOf s1 rt.agent_id - 1),
          task_results := setEntry s1.task_results rt.task_id
            { status := "failed", result := none, error := some err,
              completed_at := none, failed_at := some now,
              agent_id := rt.agent_id } }

/-- `AgentCoordinator.get_task_result`. -/
def get_task_result (tid : Nat) (s : CoordState) : Option TaskResult :=
  getEntry s.task_results tid

/-- `AgentCoordinator.heartbeat`: updates `last_heartbeat` when the agent
is registered, silently does nothing otherwise. -/
def heartbeat (aid : Nat) (now : Nat) (s : CoordState) : CoordState :=
  match lookupA s.agents aid with
  | none => s
  | some _ =>
    { s with
      agents := updateA s.agents aid (fun a => { a with last_heartbeat := now }) }

/-! ## WorkflowEngine (src/orchestrator/workflow/engine.py) -/

/-- `WorkflowStatus` (engine.py lines 15-21). -/
inductive WStatus where
  | pending
  | running
  | completed
  | failed
  | timeout
  deriving DecidableEq

/-- `WorkflowStep` (models/schemas.py). -/
structure WorkflowStep where
  step_name : String
  status : String
  start_time : Nat
  end_time : Option Nat
  duration_ms : Option Nat
  data : Payload
  errors : List String
  deriving DecidableEq

/-- `AgentState` (models/schemas.py): the mutable pipeline state. -/
structure AgentState where
  user_id : String
  timestamp : Nat
  sensor_data : Payload
  validated_data : Option Payload
  rhythm_analysis : Option Payload
  intervention_plan : Option Payload
  feedback : Option Payload
  errors : List String
  workflow_id : Option Nat
  current_step : String
  deriving DecidableEq

/-- The result dict assembled on successful completion
(engine.py lines 101-106). -/
structure WResult where
  validated_data : Option Payload
  rhythm_analysis : Option Payload
  intervention_plan : Option Payload
  feedback : Option Payload
  deriving DecidableEq

/-- `WorkflowExecution` (models/schemas.py). -/
structure WorkflowExecution where
  workflow_id : Nat
  user_id : String
  start_time : Nat
  end_time : Option Nat
  status : WStatus
  steps : List WorkflowStep
  result : Option WResult
  deriving DecidableEq

/-- The mutable state of a `WorkflowEngine`. -/
structure EngineState where
  workflows : List (Nat × WorkflowExecution)
  active_workflows : Int
  next_id : Nat
  deriving DecidableEq

/-- `WorkflowEngine.__init__`. -/
def initEngine : EngineState :=
  { workflows := [], active_workflows := 0, next_id := 0 }

/-- In-place mutation of the value stored under a key (the Python code
mutates `self.workflows[workflow_id]` in place). -/
def mapEntry {α : Type} (l : List (Nat × α)) (k : Nat) (f : α → α) :
    List (Nat × α) :=
  l.map (fun kv => if kv.1 == k then (kv.1, f kv.2) else kv)

/-- A pipeline stage body: consumes the shared state and either returns
an updated state or raises (message of the exception). In the source
`_execute_step` receives the stage body as the `step_func` argument. -/
abbrev StepFun := AgentState → Except String AgentState

/-- The four stage bodies wired into `execute_workflow`; the source
hardcodes `self._perception_step` etc., whose concrete bodies are
`perception_step` and friends below. -/
structure StepFuns where
  perception : StepFun
  analysis : StepFun
  intervention : StepFun
  feedback : StepFun

/-- Python exceptions surfaced by `execute_workflow`. -/
inductive PyErr where
  | valueError (msg : String)
  | attributeError (msg : String)
  | exc (msg : String)
  deriving DecidableEq

/-- `WorkflowEngine.create_workflow`: allocates a PENDING execution. -/
def create_workflow (user_id : String) (now : Nat) (e : EngineState) :
    Nat × EngineState :=
  let wid := e.next_id
  (wid,
   { e with
     workflows := e.workflows ++
       [(wid, { workflow_id := wid, user_id := user_id, start_time := now,
                end_time := none, status := WStatus.pending, steps := [],
                result := none })],
     next_id := wid + 1 })

/-- A StepRecord for a stage that completed (engine.py lines 147-176):
status "completed", end time stamped, duration recorded. -/
def okStep (step_name : String) (now : Nat) : WorkflowStep :=
  { step_name := step_name, status := "completed", start_time := now,
    end_time := some now, duration_ms := some ((now - now) * 1000),
    data := [], errors := [] }

/-- A StepRecord for a stage that raised (engine.py lines 179-192):
status "failed", end time stamped, the error message appended. -/
def failStep (step_name : String) (msg : String) (now : Nat) : WorkflowStep :=
  { step_name := step_name, status := "failed", start_time := now,
    end_time := some now, duration_ms := none, data := [], errors := [msg] }

/-- `WorkflowEngine._execute_step`: sets `current_step`, runs the stage
body, appends a StepRecord to the execution whether the body returned or
raised, and propagates the body's outcome. -/
def execute_step (wid : Nat) (step_name : String) (st : AgentState)
    (f : StepFun) (now : Nat) (e : EngineState) :
    EngineState × Except String AgentState :=
  let st1 : AgentState := { st with current_step := step_name }
  match f st1 with
  | Except.ok st2 =>
    ({ e with
        workflows := mapEntry e.workflows wid
          (fun w => { w with steps := w.steps ++ [okStep step_name now] }) },
     Except.ok st2)
  | Except.error m =>
    ({ e with
        workflows := mapEntry e.workflows wid
          (fun w => { w with steps := w.steps ++ [failStep step_name m now] }) },
     Except.error m)

/-- `WorkflowEngine._should_get_feedback`: Python truthiness of
`state.intervention_plan` (None and the empty dict are falsy), then
membership of `plan.get("priority", "low")` in ["medium", "high"]. -/
def should_get_feedback (s : AgentState) : Bool :=
  match s.intervention_plan with
  | some plan =>
    if plan.isEmpty then false
    else ((pLookup plan "priority").getD "low" == "medium")
      || ((pLookup plan "priority").getD "low" == "high")
  | none => false

/-- `workflow.status = st` on the stored execution record. -/
def setWStatus (wid : Nat) (st : WStatus) (e : EngineState) : EngineState :=
  { e with
    workflows := mapEntry e.workflows wid (fun w => { w with status := st }) }

/-- The `except` block of `execute_workflow` (lines 118-133): status
FAILED and end time stamped. -/
def failWf (wid : Nat) (now : Nat) (e : EngineState) : EngineState :=
  { e with
    workflows := mapEntry e.workflows wid
      (fun w => { w with status := WStatus.failed, end_time := some now }) }

/-- The result dict assembled from the final state (lines 101-106). -/
def mkWResult (s : AgentState) : WResult :=
  { validated_data := s.validated_data, rhythm_analysis := s.rhythm_analysis,
    intervention_plan := s.intervention_plan, feedback := s.feedback }

/-- Successful completion of `execute_workflow` (lines 99-106): status
COMPLETED, end time stamped, result recorded. -/
def completeWf (wid : Nat) (now : Nat) (s : AgentState) (e : EngineState) :
    EngineState :=
  { e with
    workflows := mapEntry e.workflows wid
      (fun w => { w with status := WStatus.completed, end_time := some now,
                         result := some (mkWResult s) }) }

/-- `WorkflowEngine.execute_workflow`. Besides the updated engine state it
returns the outcome surfaced to the caller and the list of statuses
assigned to this execution's record during the call (for transition
reasoning). The `active_workflows` counter is incremented on entry and
decremented in the `finally` block, so it is net-unchanged on every path.
When the id is unknown, the code raises `ValueError(... not found)` inside
the `try`, and the `except` block then evaluates `workflow.status = FAILED`
with `workflow = None`, which raises `AttributeError`; the surfaced
exception is therefore the AttributeError and no record is touched. -/
def execute_workflow (fs : StepFuns) (wid : Nat) (initial : AgentState)
    (now : Nat) (e : EngineState) :
    EngineState × Except PyErr WResult × List WStatus :=
  match getEntry e.workflows wid with
  | none =>
    (e, Except.error (PyErr.attributeError "NoneType object has no attribute status"), [])
  | some _ =>
    let e1 := setWStatus wid WStatus.running e
    let st0 : AgentState := { initial with workflow_id := some wid }
    match execute_step wid "perception" st0 fs.perception now e1 with
    | (e2, Except.error m) =>
      (failWf wid now e2, Except.error (PyErr.exc m), [WStatus.running, WStatus.failed])
    | (e2, Except.ok s1) =>
      match execute_step wid "analysis" s1 fs.analysis now e2 with
      | (e3, Except.error m) =>
        (failWf wid now e3, Except.error (PyErr.exc m), [WStatus.running, WStatus.failed])
      | (e3, Except.ok s2) =>
        match execute_step wid "intervention" s2 fs.intervention now e3 with
        | (e4, Except.error m) =>
          (failWf wid now e4, Except.error (PyErr.exc m), [WStatus.running, WStatus.failed])
        | (e4, Except.ok s3) =>
          if should_get_feedback s3 then
            match execute_step wid "feedback" s3 fs.feedback now e4 with
            | (e5, Except.error m) =>
              (failWf wid now e5, Except.error (PyErr.exc m), [WStatus.running, WStatus.failed])
            | (e5, Except.ok s4) =>
              (completeWf wid now s4 e5, Except.ok (mkWResult s4), [WStatus.running, WStatus.completed])
          else
            (completeWf wid now s3 e4, Except.ok (mkWResult s3), [WStatus.running, WStatus.completed])

/-- `WorkflowEngine.get_workflow_status`. -/
def get_workflow_status (wid : Nat) (e : EngineState) : Option WorkflowExecution :=
  getEntry e.workflows wid

/-- `WorkflowEngine._perception_step`: always succeeds, fills
`validated_data`. -/
def perception_step (now : Nat) : StepFun := fun st =>
  Except.ok { st with
    validated_data := some [("imu_valid", "True"), ("hrv_valid", "True"),
     ("environment_valid", "True"), ("quality_score", "0.95"),
     ("processed_at", toString now)] }

/-- `WorkflowEngine._analysis_step`: always succeeds, fills
`rhythm_analysis`. -/
def analysis_step (now : Nat) : StepFun := fun st =>
  Except.ok { st with
    rhythm_analysis := some [("vitality_score", "0.72"), ("energy_state", "moderate"),
     ("risk_level", "low"), ("circadian_phase", "afternoon_peak"),
     ("prediction_confidence", "0.89"), ("analyzed_at", toString now)] }

/-- `WorkflowEngine._intervention_step`: always succeeds, fills
`intervention_plan` with priority "medium". -/
def intervention_step (now : Nat) : StepFun := fun st =>
  Except.ok { st with
    intervention_plan := some [("recommendations", "Take a 10-minute break; Practice deep breathing; Hydrate"),
     ("next_intervention", toString now), ("intervention_type", "preventive"),
     ("priority", "medium"), ("generated_at", toString now)] }

/-- `WorkflowEngine._feedback_step`: always succeeds, fills `feedback`. -/
def feedback_step (now : Nat) : StepFun := fun st =>
  Except.ok { st with
    feedback := some [("feedback_requested", "True"), ("feedback_channels", "app; notification"),
     ("requested_at", toString now)] }

/-- The stage bodies hardwired in `execute_workflow` (lines 86-96). -/
def defaultFuns (now : Nat) : StepFuns :=
  { perception := perception_step now, analysis := analysis_step now,
    intervention := intervention_step now, feedback := feedback_step now }

/-- An externally invokable engine operation. -/
inductive EngOp where
  | create (user_id : String) (now : Nat)
  | execute (fs : StepFuns) (wid : Nat) (initial : AgentState) (now : Nat)

/-- Effect of one engine operation on the engine state. -/
def engStep (e : EngineState) (op : EngOp) : EngineState :=
  match op with
  | EngOp.create uid now => (create_workflow uid now e).2
  | EngOp.execute fs wid st now => (execute_workflow fs wid st now e).1

/-- Engine state after a sequence of operations from a fresh engine. -/
def runEng (ops : List EngOp) : EngineState :=
  ops.foldl engStep initEngine

/-! ## EventDispatcher (src/orchestrator/dispatcher/event_dispatcher.py) -/

/-- An `Event` record. -/
structure Event where
  event_id : Nat
  event_type : String
  payload : Payload
  source : String
  priority : Int
  timestamp : Nat
  processed : Bool
  deriving DecidableEq

/-- The mutable state of an `EventDispatcher`. Handlers are identified by
`Nat` ids; their behavior lives in a `HandlerEnv`. -/
structure DispState where
  subscribers : List (String × List Nat)
  event_queue : List Event
  event_history : List Event
  is_running : Bool
  next_id : Nat
  deriving DecidableEq

/-- What each handler does with an event: `none` means it returns
normally, `some msg` means it raises. -/
abbrev HandlerEnv := Nat → Event → Option String

/-- `EventDispatcher.__init__`. -/
def initDisp : DispState :=
  { subscribers := [], event_queue := [], event_history := [],
    is_running := false, next_id := 0 }

/-- `self.subscribers.get(topic, [])` (`defaultdict(list)` read). -/
def subGet (subs : List (String × List Nat)) (t : String) : List Nat :=
  ((subs.find? (fun kv => kv.1 == t)).map (fun kv => kv.2)).getD []

/-- `EventDispatcher.subscribe`: appends the handler to the topic's list
(`defaultdict(list)` creates the entry on first use). -/
def dispSubscribe (t : String) (h : Nat) (s : DispState) : DispState :=
  { s with
    subscribers :=
      if (s.subscribers.find? (fun kv => kv.1 == t)).isSome then
        s.subscribers.map (fun kv => if kv.1 == t then (kv.1, kv.2 ++ [h]) else kv)
      else
        s.subscribers ++ [(t, [h])] }

/-- `EventDispatcher.unsubscribe`: removes the first occurrence of the
handler from the topic's list when both exist. -/
def dispUnsubscribe (t : String) (h : Nat) (s : DispState) : DispState :=
  { s with
    subscribers :=
      s.subscribers.map (fun kv => if kv.1 == t then (kv.1, kv.2.erase h) else kv) }

/-- `EventDispatcher.emit`: mints the event, appends it to the queue and
to the bounded history (oldest entry popped when the length exceeds
1000), and returns the event id. -/
def emit (event_type : String) (payload : Payload) (source : String)
    (priority : Int) (now : Nat) (s : DispState) : Nat × DispState :=
  let ev : Event :=
    { event_id := s.next_id, event_type := event_type, payload := payload,
      source := source, priority := priority, timestamp := now,
      processed := false }
  let hist := s.event_history ++ [ev]
  (ev.event_id,
   { s with
     event_queue := s.event_queue ++ [ev],
     event_history := if hist.length > 1000 then hist.drop 1 else hist,
     next_id := s.next_id + 1 })

/-- `event.processed = True`, reflected in the history (the history holds
the same Python object). -/
def markProcessed (hist : List Event) (eid : Nat) : List Event :=
  hist.map (fun e => if e.event_id == eid then { e with processed := true } else e)

/-- The handlers delivery fans out to: topic subscribers then wildcard
subscribers (`_process_events`, lines 196-198). -/
def matchingHandlers (s : DispState) (ev : Event) : List Nat :=
  subGet s.subscribers ev.event_type ++ subGet s.subscribers "*"

/-- One iteration of the `_process_events` loop: nothing happens when the
dispatcher is stopped or the queue is empty (timeout, `continue`);
otherwise the head event is dequeued, every matching handler is invoked
(concurrently via `gather(..., return_exceptions=True)`, so one handler
raising never stops the others — each invocation is recorded with that
handler's own outcome), and the event is marked processed whether or not
any handler raised. Returns the invocation record for the event. -/
def process_one (hb : HandlerEnv) (s : DispState) :
    DispState × Option (Event × List (Nat × Option String)) :=
  if s.is_running then
    match s.event_queue with
    | [] => (s, none)
    | ev :: rest =>
      let s1 : DispState := { s with event_queue := rest }
      ({ s1 with event_history := markProcessed s1.event_history ev.event_id },
       some (ev, (matchingHandlers s ev).map (fun h => (h, hb h ev))))
  else (s, none)

/-- `EventDispatcher.start`: no-op when already running, else sets the
running flag, spawns the processing loop and emits `system.start`. -/
def dispStart (now : Nat) (s : DispState) : DispState :=
  if s.is_running then s
  else
    (emit "system.start" [("started_at", toString now)] "system" 0 now
      { s with is_running := true }).2

/-- `EventDispatcher.stop`: no-op when not running, else emits
`system.stop` and clears the running flag. -/
def dispStop (now : Nat) (s : DispState) : DispState :=
  if s.is_running then
    let s1 := (emit "system.stop" [("stopped_at", toString now)] "system" 0 now s).2
    { s1 with is_running := false }
  else s

/-- An externally invokable dispatcher operation (one loop iteration of
`_process_events` counts as an operation). -/
inductive DispOp where
  | sub (t : String) (h : Nat)
  | unsub (t : String) (h : Nat)
  | pub (t : String) (p : Payload) (source : String) (priority : Int) (now : Nat)
  | proc
  | start (now : Nat)
  | stop (now : Nat)

/-- Effect of one dispatcher operation on the dispatcher state. -/
def dispStep (hb : HandlerEnv) (s : DispState) (op : DispOp) : DispState :=
  match op with
  | DispOp.sub t h => dispSubscribe t h s
  | DispOp.unsub t h => dispUnsubscribe t h s
  | DispOp.pub t p src priority now => (emit t p src priority now s).2
  | DispOp.proc => (process_one hb s).1
  | DispOp.start now => dispStart now s
  | DispOp.stop now => dispStop now s

/-- Dispatcher state after a sequence of operations from a fresh
dispatcher. -/
def runDisp (hb : HandlerEnv) (ops : List DispOp) : DispState :=
  ops.foldl (dispStep hb) initDisp

/-! ## Concrete scenarios used by witnesses and counterexamples -/

/-- Scenario: one agent with capability "x". -/
def cw_s1 : CoordState := (register_agent "worker" ["x"] 0 initCoord).2

/-- First task of type "x": dispatched to agent 0 (task id 1). -/
def cw_s2 : CoordState := (assign_task "x" [("k", "v1")] 0 0 cw_s1).2

/-- Second task of type "x": agent 0 is busy, so it is queued (task id 2). -/
def cw_s3 : CoordState := (assign_task "x" [("k", "v2")] 0 0 cw_s2).2

/-- Agent 0 finishes task 1 successfully; the queued task is re-submitted
through `assign_task`, which mints the fresh id 3. -/
def cw_s4 : CoordState := execute_agent_task 0 true "" 1 cw_s3

/-- Agent 0 finishes the re-submitted task successfully. -/
def cw_s5 : CoordState := execute_agent_task 0 true "" 2 cw_s4

/-- Variant: agent 0's first task fails while task 2 is queued. -/
def cw_sF : CoordState := execute_agent_task 0 false "boom" 1 cw_s3

/-- The coordinator state right after the success bookkeeping of
`_execute_agent_task` (agent back to idle, completed counter bumped, load
decremented, completed TaskResult recorded), before any queue draining. -/
def completionSuccess (s : CoordState) (i : Nat) (rt : RunningTask)
    (now : Nat) : CoordState :=
  { s with
    running := s.running.eraseIdx i,
    agents := updateA s.agents rt.agent_id
      (fun x => { x with status := "idle", current_task := none,
                         tasks_completed := x.tasks_completed + 1 }),
    agent_load := setEntry s.agent_load rt.agent_id (loadOf s rt.agent_id - 1),
    task_results := setEntry s.task_results rt.task_id
      { status := "completed", result := some rt.task_data, error := none,
        completed_at := some now, failed_at := none, agent_id := rt.agent_id } }

/-- The coordinator state after the failure bookkeeping of
`_execute_agent_task` (agent back to idle, failed counter bumped, load
decremented, failed TaskResult recorded; the queue is not touched). -/
def completionFailure (s : CoordState) (i : Nat) (rt : RunningTask)
    (err : String) (now : Nat) : CoordState :=
  { s with
    running := s.running.eraseIdx i,
    agents := updateA s.agents rt.agent_id
      (fun x => { x with status := "idle", current_task := none,
                         tasks_failed := x.tasks_failed + 1 }),
    agent_load := setEntry s.agent_load rt.agent_id (loadOf s rt.agent_id - 1),
    task_results := setEntry s.task_results rt.task_id
      { status := "failed", result := none, error := some err,
        completed_at := none, failed_at := some now, agent_id := rt.agent_id } }

/-- The transitions allowed by the claimed per-execution state machine
PENDING -> RUNNING -> COMPLETED or FAILED. -/
def allowedTransition (a b : WStatus) : Bool :=
  (a == WStatus.pending && b == WStatus.running) ||
  (a == WStatus.running && (b == WStatus.completed || b == WStatus.failed))

/-- Every adjacent pair of a status trace is an allowed transition. -/
def chainOK : List WStatus → Bool
  | [] => true
  | [_] => true
  | a :: b :: rest => allowedTransition a b && chainOK (b :: rest)

/-- A concrete initial pipeline state. -/
def cst : AgentState :=
  { user_id := "u1", timestamp := 0, sensor_data := [], validated_data := none,
    rhythm_analysis := none, intervention_plan := none, feedback := none,
    errors := [], workflow_id := none, current_step := "" }

/-- Engine scenario: one workflow created (id 0, PENDING). -/
def ce_e1 : EngineState := (create_workflow "u1" 0 initEngine).2

/-- Engine scenario: workflow 0 executed once with the hardwired stage
bodies (succeeds, feedback runs since intervention priority is
"medium"). -/
def ce_e2 : EngineState := (execute_workflow (defaultFuns 0) 0 cst 0 ce_e1).1

/-- Dispatcher scenario handler behavior: handler 0 always raises,
handler 1 always returns. -/
def cd_hb : HandlerEnv := fun h _ => if h == 0 then some "boom" else none

/-- Dispatcher scenario events on topic "t". -/
def cd_ev1 : Event :=
  { event_id := 0, event_type := "t", payload := [], source := "system",
    priority := 0, timestamp := 0, processed := false }

/-- Second dispatcher scenario event. -/
def cd_ev2 : Event :=
  { event_id := 1, event_type := "t", payload := [], source := "system",
    priority := 0, timestamp := 0, processed := false }

/-- Dispatcher scenario: running dispatcher, handler 0 on "t" and
handler 1 on the wildcard, two queued events. -/
def cd_s : DispState :=
  { subscribers := [("t", [0]), ("*", [1])], event_queue := [cd_ev1, cd_ev2],
    event_history := [cd_ev1, cd_ev2], is_running := true, next_id := 2 }

/-- No execution record in the engine state carries the TIMEOUT status. -/
def noTimeoutInv (e : EngineState) : Prop :=
  ∀ k w, getEntry e.workflows k = some w → w.status ≠ WStatus.timeout

/-! ## Helper lemmas -/
theorem getEntry_nil {α : Type} (k : Nat) : getEntry ([] : List (Nat × α)) k = none := rfl

theorem getEntry_cons_pos {α : Type} (kv : Nat × α) (l : List (Nat × α)) (k : Nat)
    (h : kv.1 = k) : getEntry (kv :: l) k = some kv.2 := by
  unfold getEntry
  rw [List.find?_cons_of_pos _ (by simp [h])]
  rfl

theorem getEntry_cons_neg {α : Type} (kv : Nat × α) (l : List (Nat × α)) (k : Nat)
    (h : kv.1 ≠ k) : getEntry (kv :: l) k = getEntry l k := by
  unfold getEntry
  rw [List.find?_cons_of_neg _ (by simp [h])]

theorem setEntry_cons {α : Type} (kv : Nat × α) (l : List (Nat × α)) (k : Nat) (v : α) :
    setEntry (kv :: l) k v =
      if kv.1 = k then (k, v) :: l else kv :: setEntry l k v := rfl

theorem getEntry_setEntry_self {α : Type} (l : List (Nat × α)) (k : Nat) (v : α) :
    getEntry (setEntry l k v) k = some v := by
  induction l with
  | nil => exact getEntry_cons_pos _ _ _ rfl
  | cons kv rest ih =>
    rw [setEntry_cons]
    by_cases h : kv.1 = k
    · rw [if_pos h]
      exact getEntry_cons_pos _ _ _ rfl
    · rw [if_neg h, getEntry_cons_neg _ _ _ h]
      exact ih

theorem getEntry_setEntry_other {α : Type} (l : List (Nat × α)) (k k' : Nat) (v : α)
    (hne : k' ≠ k) : getEntry (setEntry l k v) k' = getEntry l k' := by
  induction l with
  | nil =>
    rw [getEntry_nil]
    exact getEntry_cons_neg _ _ _ (fun hc => hne hc.symm)
  | cons kv rest ih =>
    rw [setEntry_cons]
    by_cases h : kv.1 = k
    · rw [if_pos h, getEntry_cons_neg _ _ _ (fun hc => hne hc.symm)]
      by_cases h2 : kv.1 = k'
      · exact absurd (h2.symm.trans h) hne
      · rw [getEntry_cons_neg _ _ _ h2]
    · rw [if_neg h]
      by_cases h2 : kv.1 = k'
      · rw [getEntry_cons_pos _ _ _ h2, getEntry_cons_pos _ _ _ h2]
      · rw [getEntry_cons_neg _ _ _ h2, getEntry_cons_neg _ _ _ h2]
        exact ih

theorem selMin_cons {α : Type} (k : α → Int) (h a : α) (t : List α) :
    selMin k h (a :: t) = selMin k (if k a < k h then a else h) t := rfl

theorem selMin_mem {α : Type} (k : α → Int) (h : α) (t : List α) :
    selMin k h t ∈ h :: t := by
  induction t generalizing h with
  | nil => simp [selMin]
  | cons a t ih =>
    rw [selMin_cons]
    by_cases hlt : k a < k h
    · rw [if_pos hlt]
      have := ih (h := a)
      rcases List.mem_cons.mp this with h1 | h1
      · exact List.mem_cons.mpr (Or.inr (by simp [h1]))
      · exact List.mem_cons.mpr (Or.inr (by simp [h1]))
    · rw [if_neg hlt]
      have := ih (h := h)
      rcases List.mem_cons.mp this with h1 | h1
      · exact List.mem_cons.mpr (Or.inl h1)
      · exact List.mem_cons.mpr (Or.inr (by simp [h1]))

theorem selMin_le {α : Type} (k : α → Int) (h : α) (t : List α) :
    ∀ b ∈ h :: t, k (selMin k h t) ≤ k b := by
  induction t generalizing h with
  | nil =>
    intro b hb
    rcases List.mem_cons.mp hb with h1 | h1
    · subst h1; simp [selMin]
    · simp at h1
  | cons a t ih =>
    intro b hb
    rw [selMin_cons]
    have hseed : k (selMin k (if k a < k h then a else h) t) ≤
        k (if k a < k h then a else h) :=
      ih (if k a < k h then a else h) _ (List.mem_cons_self _ _)
    rcases List.mem_cons.mp hb with h1 | h1
    · -- b = h
      subst h1
      by_cases hlt : k a < k b
      · rw [if_pos hlt] at hseed ⊢; omega
      · rw [if_neg hlt] at hseed ⊢; omega
    · rcases List.mem_cons.mp h1 with h2 | h2
      · -- b = a
        subst h2
        by_cases hlt : k b < k h
        · rw [if_pos hlt] at hseed ⊢; omega
        · rw [if_neg hlt] at hseed ⊢; omega
      · exact ih _ b (List.mem_cons.mpr (Or.inr h2))

theorem mapEntry_cons {α : Type} (kv : Nat × α) (l : List (Nat × α)) (k : Nat)
    (f : α → α) :
    mapEntry (kv :: l) k f =
      (if kv.1 = k then (kv.1, f kv.2) else kv) :: mapEntry l k f := by
  simp only [mapEntry, List.map_cons]
  by_cases h : kv.1 = k
  · rw [if_pos (by simp [h]), if_pos h]
  · rw [if_neg (by simp [h]), if_neg h]

theorem getEntry_mapEntry_self {α : Type} (l : List (Nat × α)) (k : Nat) (f : α → α) :
    getEntry (mapEntry l k f) k = (getEntry l k).map f := by
  induction l with
  | nil => rfl
  | cons kv rest ih =>
    rw [mapEntry_cons]
    by_cases h : kv.1 = k
    · rw [if_pos h, getEntry_cons_pos _ _ _ (show ((kv.1, f kv.2) : Nat × α).1 = k from h),
          getEntry_cons_pos _ _ _ h]
      rfl
    · rw [if_neg h, getEntry_cons_neg _ _ _ h, getEntry_cons_neg _ _ _ h]
      exact ih

theorem getEntry_mapEntry_other {α : Type} (l : List (Nat × α)) (k k' : Nat)
    (f : α → α) (hne : k' ≠ k) :
    getEntry (mapEntry l k f) k' = getEntry l k' := by
  induction l with
  | nil => rfl
  | cons kv rest ih =>
    rw [mapEntry_cons]
    by_cases h : kv.1 = k
    · have h2 : kv.1 ≠ k' := by rw [h]; exact fun hc => hne hc.symm
      rw [if_pos h, getEntry_cons_neg _ _ _ (show ((kv.1, f kv.2) : Nat × α).1 ≠ k' from h2),
          getEntry_cons_neg _ _ _ h2]
      exact ih
    · rw [if_neg h]
      by_cases h2 : kv.1 = k'
      · rw [getEntry_cons_pos _ _ _ h2, getEntry_cons_pos _ _ _ h2]
      · rw [getEntry_cons_neg _ _ _ h2, getEntry_cons_neg _ _ _ h2]
        exact ih

theorem updateA_cons (a : AgentInfo) (l : List AgentInfo) (k : Nat)
    (f : AgentInfo → AgentInfo) :
    updateA (a :: l) k f = (if a.agent_id = k then f a else a) :: updateA l k f := by
  simp only [updateA, List.map_cons]
  by_cases h : a.agent_id = k
  · rw [if_pos (by simp [h]), if_pos h]
  · rw [if_neg (by simp [h]), if_neg h]

theorem lookupA_cons_pos (a : AgentInfo) (l : List AgentInfo) (k : Nat)
    (h : a.agent_id = k) : lookupA (a :: l) k = some a := by
  unfold lookupA
  rw [List.find?_cons_of_pos _ (by simp [h])]

theorem lookupA_cons_neg (a : AgentInfo) (l : List AgentInfo) (k : Nat)
    (h : a.agent_id ≠ k) : lookupA (a :: l) k = lookupA l k := by
  unfold lookupA
  rw [List.find?_cons_of_neg _ (by simp [h])]

theorem lookupA_updateA_self (l : List AgentInfo) (k : Nat) (f : AgentInfo → AgentInfo)
    (hf : ∀ a, (f a).agent_id = a.agent_id) :
    lookupA (updateA l k f) k = (lookupA l k).map f := by
  induction l with
  | nil => rfl
  | cons a rest ih =>
    rw [updateA_cons]
    by_cases h : a.agent_id = k
    · rw [if_pos h, lookupA_cons_pos _ _ _ (by rw [hf]; exact h), lookupA_cons_pos _ _ _ h]
      rfl
    · rw [if_neg h, lookupA_cons_neg _ _ _ h, lookupA_cons_neg _ _ _ h]
      exact ih

/-! ## Claim theorems -/

/-- C10: for an agent id not in the registry, `heartbeat` is a silent
no-op leaving the whole coordinator state unchanged; for a registered
agent id it changes only that agent's `last_heartbeat` field — every
other field of every agent, the load map, the task results, the queue,
the spawned executions and the id counter are untouched. -/
theorem c10_heartbeat_frame (s : CoordState) (aid : Nat) (now : Nat) :
    (lookupA s.agents aid = none → heartbeat aid now s = s) ∧
    (∀ a, lookupA s.agents aid = some a →
      heartbeat aid now s =
        { s with
          agents := updateA s.agents aid (fun x => { x with last_heartbeat := now }) } ∧
      (heartbeat aid now s).task_queue = s.task_queue ∧
      (heartbeat aid now s).task_results = s.task_results ∧
      (heartbeat aid now s).agent_load = s.agent_load ∧
      (heartbeat aid now s).running = s.running ∧
      (heartbeat aid now s).next_id = s.next_id ∧
      lookupA (heartbeat aid now s).agents aid = some { a with last_heartbeat := now } ∧
      ∀ b ∈ s.agents, b.agent_id ≠ aid → b ∈ (heartbeat aid now s).agents) := by
  constructor
  · intro h
    simp only [heartbeat, h]
  · intro a h
    have hstate : heartbeat aid now s =
        { s with
          agents := updateA s.agents aid (fun x => { x with last_heartbeat := now }) } := by
      simp only [heartbeat, h]
    refine ⟨hstate, by rw [hstate], by rw [hstate], by rw [hstate], by rw [hstate],
      by rw [hstate], ?_, ?_⟩
    · rw [hstate]
      show lookupA (updateA s.agents aid (fun x => { x with last_heartbeat := now })) aid = _
      rw [lookupA_updateA_self s.agents aid
        (fun x => { x with last_heartbeat := now }) (fun x => rfl), h]
      rfl
    · intro b hb hne
      rw [hstate]
      have hmem := List.mem_map_of_mem
        (fun x => if x.agent_id == aid then { x with last_heartbeat := now } else x) hb
      simpa [updateA, hne] using hmem

/-- Witness for C10 at concrete inputs: agent id 7 is unknown in
`cw_s1` (no-op), agent id 0 is known (heartbeat field updated). -/
theorem c10_heartbeat_frame_witness :
    heartbeat 7 5 cw_s1 = cw_s1 ∧
    lookupA (heartbeat 0 5 cw_s1).agents 0 = some
      { agent_id := 0, agent_type := "worker", capabilities := ["x"],
        status := "idle", current_task := none, tasks_completed := 0,
        tasks_failed := 0, registered_at := 0, last_heartbeat := 5 } :=
  ⟨(c10_heartbeat_frame cw_s1 7 5).1 (by decide),
   (((c10_heartbeat_frame cw_s1 0 5).2
      { agent_id := 0, agent_type := "worker", capabilities := ["x"],
        status := "idle", current_task := none, tasks_completed := 0,
        tasks_failed := 0, registered_at := 0, last_heartbeat := 0 }
      (by decide)).2.2.2.2.2.2.1)⟩

/-- `suitableAgents` only reads the agent registry, so bumping the id
counter does not change it. -/
theorem suitableAgents_next (s : CoordState) (n : Nat) (t : String) :
    suitableAgents { s with next_id := n } t = suitableAgents s t := rfl

/-- `loadOf` only reads the load map, so bumping the id counter does not
change it. -/
theorem loadOf_next (s : CoordState) (n : Nat) (k : Nat) :
    loadOf { s with next_id := n } k = loadOf s k := rfl

/-- C6: `assign_task` never hands a task to a busy agent: when at least
one idle agent with the capability exists, the selected agent is drawn
from the idle-and-capable list, has minimal current load there, flips to
busy with its load incremented; when none exists the task is appended to
the overflow queue and no agent or spawned execution changes. -/
theorem c6_assign_task_routing (s : CoordState) (task_type : String)
    (task_data : Payload) (priority : Int) (now : Nat) :
    (suitableAgents s task_type = [] →
      (assign_task task_type task_data priority now s).2.task_queue =
          s.task_queue ++
            [{ task_id := s.next_id, task_type := task_type,
               task_data := task_data, priority := priority, queued_at := now }] ∧
      (assign_task task_type task_data priority now s).2.agents = s.agents ∧
      (assign_task task_type task_data priority now s).2.running = s.running ∧
      (assign_task task_type task_data priority now s).2.agent_load = s.agent_load) ∧
    (∀ a rest, suitableAgents s task_type = a :: rest →
      let sel := selMin (fun x => loadOf s x.agent_id) a rest
      sel ∈ suitableAgents s task_type ∧
      sel.status = "idle" ∧
      sel.capabilities.contains task_type = true ∧
      (∀ b ∈ suitableAgents s task_type, loadOf s sel.agent_id ≤ loadOf s b.agent_id) ∧
      (assign_task task_type task_data priority now s).2.agents =
        updateA s.agents sel.agent_id
          (fun ag => { ag with status := "busy", current_task := some s.next_id }) ∧
      (assign_task task_type task_data priority now s).2.agent_load =
        setEntry s.agent_load sel.agent_id (loadOf s sel.agent_id + 1) ∧
      (assign_task task_type task_data priority now s).2.running =
        s.running ++
          [{ agent_id := sel.agent_id, task_id := s.next_id, task_data := task_data }] ∧
      (assign_task task_type task_data priority now s).2.task_queue = s.task_queue) := by
  constructor
  · intro h
    simp [assign_task, suitableAgents_next, h]
  · intro a rest h
    intro sel
    have hmem : sel ∈ suitableAgents s task_type := by
      rw [h]
      exact selMin_mem _ a rest
    have hfilter := List.mem_filter.mp hmem
    have hpred := hfilter.2
    rw [Bool.and_eq_true] at hpred
    refine ⟨hmem, ?_, hpred.1, ?_, ?_, ?_, ?_, ?_⟩
    · have := hpred.2
      simpa using this
    · intro b hb
      rw [h] at hb
      exact selMin_le (fun x => loadOf s x.agent_id) a rest b hb
    · simp only [assign_task, suitableAgents_next, loadOf_next, h]
    · simp only [assign_task, suitableAgents_next, loadOf_next, h]
    · simp only [assign_task, suitableAgents_next, loadOf_next, h]
    · simp only [assign_task, suitableAgents_next, loadOf_next, h]

/-- Witness for C6 at a concrete input: in `cw_s1` agent 0 is idle and
capable of "x", so the task is dispatched to it; in `cw_s2` agent 0 is
busy, so the next "x" task is queued. -/
theorem c6_assign_task_routing_witness :
    ((assign_task "x" [("k", "v1")] 0 0 cw_s1).2.running =
        cw_s1.running ++ [{ agent_id := 0, task_id := 1, task_data := [("k", "v1")] }] ∧
      (assign_task "x" [("k", "v1")] 0 0 cw_s1).2.task_queue = cw_s1.task_queue) ∧
    (assign_task "x" [("k", "v2")] 0 0 cw_s2).2.running = cw_s2.running :=
  ⟨⟨(((c6_assign_task_routing cw_s1 "x" [("k", "v1")] 0 0).2
      { agent_id := 0, agent_type := "worker", capabilities := ["x"],
        status := "idle", current_task := none, tasks_completed := 0,
        tasks_failed := 0, registered_at := 0, last_heartbeat := 0 }
      [] (by decide)).2.2.2.2.2.2.1),
    (((c6_assign_task_routing cw_s1 "x" [("k", "v1")] 0 0).2
      { agent_id := 0, agent_type := "worker", capabilities := ["x"],
        status := "idle", current_task := none, tasks_completed := 0,
        tasks_failed := 0, registered_at := 0, last_heartbeat := 0 }
      [] (by decide)).2.2.2.2.2.2.2)⟩,
   ((c6_assign_task_routing cw_s2 "x" [("k", "v2")] 0 0).1 (by decide)).2.2.1⟩

/-- C1 (code bug evaluation): with one "x"-capable agent, the first "x"
task (id 1) is dispatched and the second (id 2) is queued while the agent
is busy; `get_task_result 2` is none while queued. When the agent
completes task 1, the queued task is re-submitted through `assign_task`,
which mints the fresh id 3 and discards the stored id 2. After that task
also completes, its result is recorded under 3 — `get_task_result` on the
id 2 returned by the original `assign_task` call stays none forever even
though the queued task ran to completion. -/
theorem c1_queued_task_result_rekeyed :
    (assign_task "x" [("k", "v2")] 0 0 cw_s2).1 = 2 ∧
    cw_s3.task_queue.map (fun qt => qt.task_id) = [2] ∧
    get_task_result 2 cw_s3 = none ∧
    get_task_result 2 cw_s4 = none ∧
    cw_s4.running = [{ agent_id := 0, task_id := 3, task_data := [("k", "v2")] }] ∧
    cw_s4.task_queue = [] ∧
    get_task_result 2 cw_s5 = none ∧
    get_task_result 3 cw_s5 = some
      { status := "completed", result := some [("k", "v2")], error := none,
        completed_at := some 2, failed_at := none, agent_id := 0 } ∧
    cw_s5.task_queue = [] ∧ cw_s5.running = [] := by
  decide

/-- C2 counterexample: in `cw_s3` agent 0 is busy with task 1 and task 2
sits in the overflow queue. The claim says that on task completion,
success or failure alike, exactly one queued task is re-submitted through
`assignTask`. On the failure completion `cw_sF` the queue is untouched
(still holding task 2) and nothing is re-submitted, refuting the claim at
this input. -/
theorem c2_failure_completion_no_drain :
    cw_sF.task_queue = cw_s3.task_queue ∧
    cw_sF.task_queue ≠ [] ∧
    cw_sF.running = [] ∧
    (lookupA cw_sF.agents 0).map (fun a => a.status) = some "idle" ∧
    (get_task_result 1 cw_sF).map (fun r => r.status) = some "failed" := by
  decide

/-- C2 (amended): on every task completion the owning agent returns to
idle with `current_task` cleared, its load decrements, its completed or
failed counter increments, and a TaskResult is recorded under the running
task's id. Exactly one queued task (if the queue is non-empty) is
re-submitted through the same `assign_task` path on a SUCCESSFUL
completion only; a failed completion leaves the overflow queue untouched
and re-submits nothing. -/
theorem c2_completion_effects (s : CoordState) (i : Nat) (rt : RunningTask)
    (ok : Bool) (err : String) (now : Nat) (a : AgentInfo)
    (hrt : s.running.get? i = some rt)
    (ha : lookupA s.agents rt.agent_id = some a) :
    (ok = true →
      (s.task_queue = [] →
        execute_agent_task i ok err now s = completionSuccess s i rt now) ∧
      (∀ qt qs, s.task_queue = qt :: qs →
        execute_agent_task i ok err now s =
          (assign_task qt.task_type qt.task_data qt.priority now
            { completionSuccess s i rt now with task_queue := qs }).2) ∧
      lookupA (completionSuccess s i rt now).agents rt.agent_id =
        some { a with status := "idle", current_task := none,
                      tasks_completed := a.tasks_completed + 1 } ∧
      get_task_result rt.task_id (completionSuccess s i rt now) =
        some { status := "completed", result := some rt.task_data, error := none,
               completed_at := some now, failed_at := none, agent_id := rt.agent_id } ∧
      loadOf (completionSuccess s i rt now) rt.agent_id = loadOf s rt.agent_id - 1) ∧
    (ok = false →
      execute_agent_task i ok err now s = completionFailure s i rt err now ∧
      (execute_agent_task i ok err now s).task_queue = s.task_queue ∧
      (execute_agent_task i ok err now s).running = s.running.eraseIdx i ∧
      lookupA (completionFailure s i rt err now).agents rt.agent_id =
        some { a with status := "idle", current_task := none,
                      tasks_failed := a.tasks_failed + 1 } ∧
      get_task_result rt.task_id (completionFailure s i rt err now) =
        some { status := "failed", result := none, error := some err,
               completed_at := none, failed_at := some now, agent_id := rt.agent_id } ∧
      loadOf (completionFailure s i rt err now) rt.agent_id = loadOf s rt.agent_id - 1) := by
  constructor
  · intro hok
    subst hok
    refine ⟨?_, ?_, ?_, ?_, ?_⟩
    · intro hq
      simp only [execute_agent_task, hrt, ha, completionSuccess, hq]
      rfl
    · intro qt qs hq
      simp only [execute_agent_task, hrt, ha, completionSuccess, hq]
      rfl
    · show lookupA (updateA s.agents rt.agent_id _) rt.agent_id = _
      rw [lookupA_updateA_self s.agents rt.agent_id
        (fun x => { x with status := "idle", current_task := none,
                           tasks_completed := x.tasks_completed + 1 })
        (fun x => rfl), ha]
      rfl
    · show getEntry (setEntry s.task_results rt.task_id _) rt.task_id = _
      rw [getEntry_setEntry_self]
    · show (getEntry (setEntry s.agent_load rt.agent_id _) rt.agent_id).getD 0 = _
      rw [getEntry_setEntry_self]
      rfl
  · intro hok
    subst hok
    refine ⟨?_, ?_, ?_, ?_, ?_, ?_⟩
    · simp only [execute_agent_task, hrt, ha, completionFailure]
      rfl
    · simp only [execute_agent_task, hrt, ha]
      rfl
    · simp only [execute_agent_task, hrt, ha]
      rfl
    · show lookupA (updateA s.agents rt.agent_id _) rt.agent_id = _
      rw [lookupA_updateA_self s.agents rt.agent_id
        (fun x => { x with status := "idle", current_task := none,
                           tasks_failed := x.tasks_failed + 1 })
        (fun x => rfl), ha]
      rfl
    · show getEntry (setEntry s.task_results rt.task_id _) rt.task_id = _
      rw [getEntry_setEntry_self]
    · show (getEntry (setEntry s.agent_load rt.agent_id _) rt.agent_id).getD 0 = _
      rw [getEntry_setEntry_self]
      rfl

/-- Witness for the amended C2 at concrete inputs: in `cw_s3` (agent 0
busy with task 1, task 2 queued), a successful completion drains exactly
the one queued task through `assign_task`, and a failed completion
records a failed result while the queue stays as it was. -/
theorem c2_completion_effects_witness :
    execute_agent_task 0 true "" 1 cw_s3 =
      (assign_task "x" [("k", "v2")] 0 1
        { completionSuccess cw_s3 0
            { agent_id := 0, task_id := 1, task_data := [("k", "v1")] } 1 with
          task_queue := [] }).2 ∧
    (execute_agent_task 0 false "boom" 1 cw_s3).task_queue = cw_s3.task_queue :=
  ⟨((c2_completion_effects cw_s3 0
      { agent_id := 0, task_id := 1, task_data := [("k", "v1")] } true "" 1
      { agent_id := 0, agent_type := "worker", capabilities := ["x"],
        status := "busy", current_task := some 1, tasks_completed := 0,
        tasks_failed := 0, registered_at := 0, last_heartbeat := 0 }
      (by decide) (by decide)).1 rfl).2.1
      { task_id := 2, task_type := "x", task_data := [("k", "v2")],
        priority := 0, queued_at := 0 } [] (by decide),
   ((c2_completion_effects cw_s3 0
      { agent_id := 0, task_id := 1, task_data := [("k", "v1")] } false "boom" 1
      { agent_id := 0, agent_type := "worker", capabilities := ["x"],
        status := "busy", current_task := some 1, tasks_completed := 0,
        tasks_failed := 0, registered_at := 0, last_heartbeat := 0 }
      (by decide) (by decide)).2 rfl).2.1⟩

/-- C3 (code bug evaluation): for a workflow id with no execution record,
`get_workflow_status` returns none and `execute_workflow` fails without
creating or modifying any record — but the surfaced exception is an
AttributeError raised by the `except` block (which evaluates
`workflow.status = FAILED` with `workflow = None`), not the NotFound
ValueError the code raised first. -/
theorem c3_execute_unknown_id (e : EngineState) (fs : StepFuns) (wid : Nat)
    (initial : AgentState) (now : Nat)
    (h : getEntry e.workflows wid = none) :
    get_workflow_status wid e = none ∧
    (execute_workflow fs wid initial now e).1 = e ∧
    (execute_workflow fs wid initial now e).2.1 =
      Except.error (PyErr.attributeError "NoneType object has no attribute status") := by
  refine ⟨h, ?_, ?_⟩ <;> simp only [execute_workflow, h]

/-- Witness for C3 at a concrete input: a fresh engine has no record for
workflow id 5. -/
theorem c3_execute_unknown_id_witness :
    get_workflow_status 5 initEngine = none ∧
    (execute_workflow (defaultFuns 0) 5 cst 0 initEngine).1 = initEngine ∧
    (execute_workflow (defaultFuns 0) 5 cst 0 initEngine).2.1 =
      Except.error (PyErr.attributeError "NoneType object has no attribute status") :=
  c3_execute_unknown_id initEngine (defaultFuns 0) 5 cst 0 (by decide)

/-- C4: whichever stage raises first, the remaining stages are not run:
the execution's status becomes FAILED, its end time is stamped, the
StepRecords accumulated so far are preserved and end with a failed record
for the raising stage carrying its error, no record follows it, and the
failure is surfaced to the caller of `execute_workflow`. Stated per
stage, over arbitrary stage bodies. -/
theorem c4_stage_failure_aborts (fs : StepFuns) (wid : Nat)
    (initial : AgentState) (now : Nat) (e : EngineState)
    (w : WorkflowExecution)
    (hw : getEntry e.workflows wid = some w) :
    (∀ m, fs.perception
        { initial with workflow_id := some wid, current_step := "perception" } = Except.error m →
      (execute_workflow fs wid initial now e).2.1 = Except.error (PyErr.exc m) ∧
      getEntry (execute_workflow fs wid initial now e).1.workflows wid =
        some { w with status := WStatus.failed, end_time := some now,
                      steps := w.steps ++ [failStep "perception" m now] }) ∧
    (∀ s1 m, fs.perception
        { initial with workflow_id := some wid, current_step := "perception" } = Except.ok s1 →
      fs.analysis { s1 with current_step := "analysis" } = Except.error m →
      (execute_workflow fs wid initial now e).2.1 = Except.error (PyErr.exc m) ∧
      getEntry (execute_workflow fs wid initial now e).1.workflows wid =
        some { w with status := WStatus.failed, end_time := some now,
                      steps := w.steps ++
                        [okStep "perception" now, failStep "analysis" m now] }) ∧
    (∀ s1 s2 m, fs.perception
        { initial with workflow_id := some wid, current_step := "perception" } = Except.ok s1 →
      fs.analysis { s1 with current_step := "analysis" } = Except.ok s2 →
      fs.intervention { s2 with current_step := "intervention" } = Except.error m →
      (execute_workflow fs wid initial now e).2.1 = Except.error (PyErr.exc m) ∧
      getEntry (execute_workflow fs wid initial now e).1.workflows wid =
        some { w with status := WStatus.failed, end_time := some now,
                      steps := w.steps ++
                        [okStep "perception" now, okStep "analysis" now,
                         failStep "intervention" m now] }) ∧
    (∀ s1 s2 s3 m, fs.perception
        { initial with workflow_id := some wid, current_step := "perception" } = Except.ok s1 →
      fs.analysis { s1 with current_step := "analysis" } = Except.ok s2 →
      fs.intervention { s2 with current_step := "intervention" } = Except.ok s3 →
      should_get_feedback s3 = true →
      fs.feedback { s3 with current_step := "feedback" } = Except.error m →
      (execute_workflow fs wid initial now e).2.1 = Except.error (PyErr.exc m) ∧
      getEntry (execute_workflow fs wid initial now e).1.workflows wid =
        some { w with status := WStatus.failed, end_time := some now,
                      steps := w.steps ++
                        [okStep "perception" now, okStep "analysis" now,
                         okStep "intervention" now, failStep "feedback" m now] }) := by
  refine ⟨?_, ?_, ?_, ?_⟩
  · intro m h1
    constructor
    · simp only [execute_workflow, execute_step, hw, h1]
    · simp only [execute_workflow, execute_step, setWStatus, failWf, hw, h1]
      rw [getEntry_mapEntry_self, getEntry_mapEntry_self, getEntry_mapEntry_self, hw]
      rfl
  · intro s1 m h1 h2
    constructor
    · simp only [execute_workflow, execute_step, hw, h1, h2]
    · simp only [execute_workflow, execute_step, setWStatus, failWf, hw, h1, h2]
      rw [getEntry_mapEntry_self, getEntry_mapEntry_self, getEntry_mapEntry_self,
        getEntry_mapEntry_self, hw]
      simp
  · intro s1 s2 m h1 h2 h3
    constructor
    · simp only [execute_workflow, execute_step, hw, h1, h2, h3]
    · simp only [execute_workflow, execute_step, setWStatus, failWf, hw, h1, h2, h3]
      rw [getEntry_mapEntry_self, getEntry_mapEntry_self, getEntry_mapEntry_self,
        getEntry_mapEntry_self, getEntry_mapEntry_self, hw]
      simp
  · intro s1 s2 s3 m h1 h2 h3 hsf h4
    constructor
    · simp only [execute_workflow, execute_step, hw, h1, h2, h3, hsf, h4, if_true]
    · simp only [execute_workflow, execute_step, setWStatus, failWf, hw, h1, h2, h3,
        hsf, h4, if_true]
      rw [getEntry_mapEntry_self, getEntry_mapEntry_self, getEntry_mapEntry_self,
        getEntry_mapEntry_self, getEntry_mapEntry_self, getEntry_mapEntry_self, hw]
      simp

/-- Witness for C4 at a concrete input: executing workflow 0 of `ce_e1`
with a perception stage that raises "boom" yields a FAILED execution
holding exactly the one failed perception record, and the failure
surfaces to the caller. -/
theorem c4_stage_failure_aborts_witness :
    (execute_workflow
        { perception := fun _ => Except.error "boom",
          analysis := analysis_step 0, intervention := intervention_step 0,
          feedback := feedback_step 0 } 0 cst 0 ce_e1).2.1 =
      Except.error (PyErr.exc "boom") ∧
    getEntry (execute_workflow
        { perception := fun _ => Except.error "boom",
          analysis := analysis_step 0, intervention := intervention_step 0,
          feedback := feedback_step 0 } 0 cst 0 ce_e1).1.workflows 0 =
      some { workflow_id := 0, user_id := "u1", start_time := 0,
             end_time := some 0, status := WStatus.failed,
             steps := [failStep "perception" "boom" 0], result := none } :=
  (c4_stage_failure_aborts
    { perception := fun _ => Except.error "boom",
      analysis := analysis_step 0, intervention := intervention_step 0,
      feedback := feedback_step 0 } 0 cst 0 ce_e1
    { workflow_id := 0, user_id := "u1", start_time := 0, end_time := none,
      status := WStatus.pending, steps := [], result := none }
    (by decide)).1 "boom" rfl

/-- The code's feedback predicate agrees with the claim's phrasing: it
holds exactly when the intervention plan carries a priority entry whose
value is "medium" or "high" (Python truthiness of None/empty dict and the
"low" default make the two coincide). -/
theorem should_get_feedback_iff (s : AgentState) :
    should_get_feedback s = true ↔
      ∃ p, s.intervention_plan.bind (fun plan => pLookup plan "priority") = some p ∧
        (p = "medium" ∨ p = "high") := by
  unfold should_get_feedback
  cases hplan : s.intervention_plan with
  | none => simp
  | some plan =>
    by_cases hemp : plan.isEmpty = true
    · have hnil : plan = [] := by
        cases plan with
        | nil => rfl
        | cons x xs => simp [List.isEmpty] at hemp
      subst hnil
      simp [pLookup]
    · cases hp : pLookup plan "priority" with
      | none => simp [hemp, hp]
      | some p => simp [hemp, hp]

/-- C5: for every execution that gets past the intervention stage (run on
a freshly created record), the final StepRecords contain a "feedback"
record if and only if the intervention output's priority entry is
"medium" or "high"; otherwise the records end at intervention. Stated
over arbitrary stage bodies. -/
theorem c5_feedback_iff_priority (fs : StepFuns) (wid : Nat)
    (initial : AgentState) (now : Nat) (e : EngineState)
    (w : WorkflowExecution) (s1 s2 s3 : AgentState)
    (hw : getEntry e.workflows wid = some w)
    (hsteps : w.steps = [])
    (h1 : fs.perception
      { initial with workflow_id := some wid, current_step := "perception" } =
      Except.ok s1)
    (h2 : fs.analysis { s1 with current_step := "analysis" } = Except.ok s2)
    (h3 : fs.intervention { s2 with current_step := "intervention" } = Except.ok s3) :
    ∃ w', getEntry (execute_workflow fs wid initial now e).1.workflows wid = some w' ∧
      ((∃ r ∈ w'.steps, r.step_name = "feedback") ↔
        ∃ p, s3.intervention_plan.bind (fun plan => pLookup plan "priority") = some p ∧
          (p = "medium" ∨ p = "high")) ∧
      ((¬ ∃ p, s3.intervention_plan.bind (fun plan => pLookup plan "priority") = some p ∧
          (p = "medium" ∨ p = "high")) →
        w'.steps = [okStep "perception" now, okStep "analysis" now,
                    okStep "intervention" now]) := by
  have hiff := should_get_feedback_iff s3
  by_cases hsf : should_get_feedback s3 = true
  · have htrig := hiff.mp hsf
    cases hfb : fs.feedback { s3 with current_step := "feedback" } with
    | ok s4 =>
      refine ⟨{ w with status := WStatus.completed, end_time := some now,
                       result := some (mkWResult s4),
                       steps := w.steps ++
                         [okStep "perception" now, okStep "analysis" now,
                          okStep "intervention" now, okStep "feedback" now] },
        ?_, ?_, ?_⟩
      · simp only [execute_workflow, execute_step, setWStatus, completeWf, hw,
          h1, h2, h3, hsf, hfb, if_true]
        rw [getEntry_mapEntry_self, getEntry_mapEntry_self, getEntry_mapEntry_self,
          getEntry_mapEntry_self, getEntry_mapEntry_self, getEntry_mapEntry_self, hw]
        simp
      · refine iff_of_true ⟨okStep "feedback" now, ?_, rfl⟩ htrig
        exact List.mem_append_right _ (by simp)
      · intro hno
        exact absurd htrig hno
    | error m =>
      refine ⟨{ w with status := WStatus.failed, end_time := some now,
                       steps := w.steps ++
                         [okStep "perception" now, okStep "analysis" now,
                          okStep "intervention" now, failStep "feedback" m now] },
        ?_, ?_, ?_⟩
      · simp only [execute_workflow, execute_step, setWStatus, failWf, hw,
          h1, h2, h3, hsf, hfb, if_true]
        rw [getEntry_mapEntry_self, getEntry_mapEntry_self, getEntry_mapEntry_self,
          getEntry_mapEntry_self, getEntry_mapEntry_self, getEntry_mapEntry_self, hw]
        simp
      · refine iff_of_true ⟨failStep "feedback" m now, ?_, rfl⟩ htrig
        exact List.mem_append_right _ (by simp)
      · intro hno
        exact absurd htrig hno
  · have hsf' : should_get_feedback s3 = false := by
      revert hsf
      cases should_get_feedback s3 <;> simp
    have hnotrig :
        ¬ ∃ p, s3.intervention_plan.bind (fun plan => pLookup plan "priority") = some p ∧
          (p = "medium" ∨ p = "high") := by
      intro h
      rw [hiff.mpr h] at hsf'
      cases hsf'
    refine ⟨{ w with status := WStatus.completed, end_time := some now,
                     result := some (mkWResult s3),
                     steps := w.steps ++
                       [okStep "perception" now, okStep "analysis" now,
                        okStep "intervention" now] },
      ?_, ?_, ?_⟩
    · simp only [execute_workflow, execute_step, setWStatus, completeWf, hw,
        h1, h2, h3, hsf', Bool.false_eq_true, if_false]
      rw [getEntry_mapEntry_self, getEntry_mapEntry_self, getEntry_mapEntry_self,
        getEntry_mapEntry_self, getEntry_mapEntry_self, hw]
      simp
    · refine iff_of_false ?_ hnotrig
      intro hmem
      rcases hmem with ⟨r, hr, hname⟩
      rw [hsteps] at hr
      simp only [List.nil_append, List.mem_cons, List.mem_singleton] at hr
      rcases hr with h | h | h | h
      · rw [h] at hname; exact absurd hname (by simp [okStep])
      · rw [h] at hname; exact absurd hname (by simp [okStep])
      · rw [h] at hname; exact absurd hname (by simp [okStep])
      · exact absurd h (List.not_mem_nil r)
    · intro _
      rw [hsteps]
      simp

/-- Witness for C5 at a concrete input: the hardwired stage bodies give
the intervention plan priority "medium", so the triggering condition
holds and the feedback record is present in the executed workflow. -/
theorem c5_feedback_iff_priority_witness :
    ∃ w', getEntry (execute_workflow (defaultFuns 0) 0 cst 0 ce_e1).1.workflows 0 =
        some w' ∧
      ((∃ r ∈ w'.steps, r.step_name = "feedback") ↔
        ∃ p, (some "medium" : Option String) = some p ∧ (p = "medium" ∨ p = "high")) ∧
      ((¬ ∃ p, (some "medium" : Option String) = some p ∧ (p = "medium" ∨ p = "high")) →
        w'.steps = [okStep "perception" 0, okStep "analysis" 0,
                    okStep "intervention" 0]) :=
  c5_feedback_iff_priority (defaultFuns 0) 0 cst 0 ce_e1
    { workflow_id := 0, user_id := "u1", start_time := 0, end_time := none,
      status := WStatus.pending, steps := [], result := none }
    { user_id := "u1", timestamp := 0, sensor_data := [],
      validated_data := some
        [("imu_valid", "True"), ("hrv_valid", "True"),
         ("environment_valid", "True"), ("quality_score", "0.95"),
         ("processed_at", "0")],
      rhythm_analysis := none, intervention_plan := none, feedback := none,
      errors := [], workflow_id := some 0, current_step := "perception" }
    { user_id := "u1", timestamp := 0, sensor_data := [],
      validated_data := some
        [("imu_valid", "True"), ("hrv_valid", "True"),
         ("environment_valid", "True"), ("quality_score", "0.95"),
         ("processed_at", "0")],
      rhythm_analysis := some
        [("vitality_score", "0.72"), ("energy_state", "moderate"),
         ("risk_level", "low"), ("circadian_phase", "afternoon_peak"),
         ("prediction_confidence", "0.89"), ("analyzed_at", "0")],
      intervention_plan := none, feedback := none,
      errors := [], workflow_id := some 0, current_step := "analysis" }
    { user_id := "u1", timestamp := 0, sensor_data := [],
      validated_data := some
        [("imu_valid", "True"), ("hrv_valid", "True"),
         ("environment_valid", "True"), ("quality_score", "0.95"),
         ("processed_at", "0")],
      rhythm_analysis := some
        [("vitality_score", "0.72"), ("energy_state", "moderate"),
         ("risk_level", "low"), ("circadian_phase", "afternoon_peak"),
         ("prediction_confidence", "0.89"), ("analyzed_at", "0")],
      intervention_plan := some
        [("recommendations", "Take a 10-minute break; Practice deep breathing; Hydrate"),
         ("next_intervention", "0"), ("intervention_type", "preventive"),
         ("priority", "medium"), ("generated_at", "0")],
      feedback := none,
      errors := [], workflow_id := some 0, current_step := "intervention" }
    (by decide) rfl rfl rfl rfl

theorem getEntry_append_single {α : Type} (l : List (Nat × α)) (k k' : Nat)
    (v w : α) (h : getEntry (l ++ [(k, v)]) k' = some w) :
    getEntry l k' = some w ∨ w = v := by
  induction l with
  | nil =>
    by_cases hk : k = k'
    · rw [List.nil_append, getEntry_cons_pos _ _ _ hk] at h
      exact Or.inr (Option.some.inj h).symm
    · rw [List.nil_append, getEntry_cons_neg _ _ _ hk, getEntry_nil] at h
      cases h
  | cons kv rest ih =>
    by_cases hk : kv.1 = k'
    · rw [List.cons_append, getEntry_cons_pos _ _ _ hk] at h
      rw [getEntry_cons_pos _ _ _ hk]
      exact Or.inl h
    · rw [List.cons_append, getEntry_cons_neg _ _ _ hk] at h
      rw [getEntry_cons_neg _ _ _ hk]
      exact ih h

theorem getEntry_mapEntry_cases {α : Type} (l : List (Nat × α)) (k k' : Nat)
    (f : α → α) (w : α) (h : getEntry (mapEntry l k f) k' = some w) :
    ∃ w0, getEntry l k' = some w0 ∧ (w = w0 ∨ w = f w0) := by
  by_cases hk : k' = k
  · subst hk
    rw [getEntry_mapEntry_self] at h
    cases hg : getEntry l k' with
    | none => rw [hg] at h; cases h
    | some w0 =>
      rw [hg] at h
      exact ⟨w0, rfl, Or.inr (Option.some.inj h).symm⟩
  · rw [getEntry_mapEntry_other _ _ _ _ hk] at h
    exact ⟨w, h, Or.inl rfl⟩

theorem no_timeout_mapEntry (l : List (Nat × WorkflowExecution)) (k : Nat)
    (f : WorkflowExecution → WorkflowExecution)
    (hP : ∀ k' w, getEntry l k' = some w → w.status ≠ WStatus.timeout)
    (hf : ∀ w, (f w).status = w.status ∨ (f w).status ≠ WStatus.timeout) :
    ∀ k' w, getEntry (mapEntry l k f) k' = some w → w.status ≠ WStatus.timeout := by
  intro k' w h
  obtain ⟨w0, hw0, hcase⟩ := getEntry_mapEntry_cases l k k' f w h
  rcases hcase with rfl | rfl
  · exact hP _ _ hw0
  · rcases hf w0 with heq | hne
    · rw [heq]; exact hP _ _ hw0
    · exact hne

/-- `_execute_step` only appends a StepRecord to the stored execution. -/
theorem execute_step_fst (wid : Nat) (name : String) (st : AgentState)
    (f : StepFun) (now : Nat) (e : EngineState) :
    ∃ rec, (execute_step wid name st f now e).1 =
      { e with
        workflows := mapEntry e.workflows wid
          (fun w => { w with steps := w.steps ++ [rec] }) } := by
  cases hf : f { st with current_step := name } with
  | ok s =>
    refine ⟨okStep name now, ?_⟩
    simp only [execute_step, hf]
  | error m =>
    refine ⟨failStep name m now, ?_⟩
    simp only [execute_step, hf]

theorem execute_step_no_timeout (wid : Nat) (name : String) (st : AgentState)
    (f : StepFun) (now : Nat) (e : EngineState) (hP : noTimeoutInv e) :
    noTimeoutInv (execute_step wid name st f now e).1 := by
  obtain ⟨rec, hfst⟩ := execute_step_fst wid name st f now e
  rw [hfst]
  intro k w h
  exact no_timeout_mapEntry e.workflows wid
    (fun x => { x with steps := x.steps ++ [rec] })
    hP (fun _ => Or.inl rfl) k w h

theorem setWStatus_no_timeout (wid : Nat) (st : WStatus) (e : EngineState)
    (hst : st ≠ WStatus.timeout) (hP : noTimeoutInv e) :
    noTimeoutInv (setWStatus wid st e) := by
  intro k w h
  exact no_timeout_mapEntry e.workflows wid (fun x => { x with status := st })
    hP (fun _ => Or.inr hst) k w h

theorem failWf_no_timeout (wid : Nat) (now : Nat) (e : EngineState)
    (hP : noTimeoutInv e) : noTimeoutInv (failWf wid now e) := by
  intro k w h
  exact no_timeout_mapEntry e.workflows wid
    (fun x => { x with status := WStatus.failed, end_time := some now })
    hP (fun _ => Or.inr (fun hc => WStatus.noConfusion hc)) k w h

theorem completeWf_no_timeout (wid : Nat) (now : Nat) (s : AgentState)
    (e : EngineState) (hP : noTimeoutInv e) :
    noTimeoutInv (completeWf wid now s e) := by
  intro k w h
  exact no_timeout_mapEntry e.workflows wid
    (fun x => { x with status := WStatus.completed, end_time := some now,
                       result := some (mkWResult s) })
    hP (fun _ => Or.inr (fun hc => WStatus.noConfusion hc)) k w h

theorem create_no_timeout (uid : String) (now : Nat) (e : EngineState)
    (hP : noTimeoutInv e) : noTimeoutInv (create_workflow uid now e).2 := by
  intro k w h
  rcases getEntry_append_single _ _ _ _ _ h with h2 | h2
  · exact hP _ _ h2
  · rw [h2]
    exact fun hc => WStatus.noConfusion hc

theorem execute_no_timeout (fs : StepFuns) (wid : Nat) (st : AgentState)
    (now : Nat) (e : EngineState) (hP : noTimeoutInv e) :
    noTimeoutInv (execute_workflow fs wid st now e).1 := by
  unfold execute_workflow
  cases hg : getEntry e.workflows wid with
  | none =>
    exact hP
  | some w0 =>
    have hrun : noTimeoutInv (setWStatus wid WStatus.running e) :=
      setWStatus_no_timeout wid WStatus.running e (by decide) hP
    rcases hp1 : execute_step wid "perception" { st with workflow_id := some wid }
        fs.perception now (setWStatus wid WStatus.running e) with ⟨e2, r1⟩
    have he2 : noTimeoutInv e2 := by
      have h := execute_step_no_timeout wid "perception"
        { st with workflow_id := some wid } fs.perception now
        (setWStatus wid WStatus.running e) hrun
      rw [hp1] at h
      exact h
    simp only [hp1]
    cases r1 with
    | error m => exact failWf_no_timeout _ _ _ he2
    | ok s1 =>
      rcases hp2 : execute_step wid "analysis" s1 fs.analysis now e2 with ⟨e3, r2⟩
      have he3 : noTimeoutInv e3 := by
        have h := execute_step_no_timeout wid "analysis" s1 fs.analysis now e2 he2
        rw [hp2] at h
        exact h
      simp only [hp2]
      cases r2 with
      | error m => exact failWf_no_timeout _ _ _ he3
      | ok s2 =>
        rcases hp3 : execute_step wid "intervention" s2 fs.intervention now e3 with ⟨e4, r3⟩
        have he4 : noTimeoutInv e4 := by
          have h := execute_step_no_timeout wid "intervention" s2 fs.intervention now e3 he3
          rw [hp3] at h
          exact h
        simp only [hp3]
        cases r3 with
        | error m => exact failWf_no_timeout _ _ _ he4
        | ok s3 =>
          by_cases hsf : should_get_feedback s3 = true
          · simp only [hsf, if_true]
            rcases hp4 : execute_step wid "feedback" s3 fs.feedback now e4 with ⟨e5, r4⟩
            have he5 : noTimeoutInv e5 := by
              have h := execute_step_no_timeout wid "feedback" s3 fs.feedback now e4 he4
              rw [hp4] at h
              exact h
            cases r4 with
            | error m => exact failWf_no_timeout _ _ _ he5
            | ok s4 => exact completeWf_no_timeout _ _ _ _ he5
          · have hsf' : should_get_feedback s3 = false := by
              revert hsf
              cases should_get_feedback s3 <;> simp
            simp only [hsf', Bool.false_eq_true, if_false]
            exact completeWf_no_timeout _ _ _ _ he4

theorem runEng_no_timeout (ops : List EngOp) : noTimeoutInv (runEng ops) := by
  have hstep : ∀ e op, noTimeoutInv e → noTimeoutInv (engStep e op) := by
    intro e op h
    cases op with
    | create uid now => exact create_no_timeout uid now e h
    | execute fs wid st now => exact execute_no_timeout fs wid st now e h
  have hfold : ∀ (l : List EngOp) (e : EngineState),
      noTimeoutInv e → noTimeoutInv (l.foldl engStep e) := by
    intro l
    induction l with
    | nil => intro e h; exact h
    | cons op rest ih =>
      intro e h
      exact ih _ (hstep e op h)
  have hinit : noTimeoutInv initEngine := by
    intro k w h
    cases h
  exact hfold ops initEngine hinit

/-- C9 counterexample: nothing stops `execute_workflow` from being called
again on an already-terminal execution id. Re-executing workflow 0 of
`ce_e2` (already COMPLETED) assigns RUNNING again, so the full trace of
statuses assigned to that record — PENDING at creation, then the
assignments of two execute calls — contains the pair COMPLETED → RUNNING,
which is not among the claimed transitions. -/
theorem c9_reexecution_breaks_transitions :
    chainOK (WStatus.pending ::
      ((execute_workflow (defaultFuns 0) 0 cst 0 ce_e1).2.2 ++
        (execute_workflow (defaultFuns 0) 0 cst 0 ce_e2).2.2)) = false := by
  decide

/-- C9 (amended): the TIMEOUT part of the claim holds unconditionally —
no operation sequence ever yields an execution record with status
TIMEOUT — and each single `execute_workflow` call assigns either nothing
(unknown id), or RUNNING then COMPLETED, or RUNNING then FAILED, so the
claimed PENDING → RUNNING → terminal chain holds for any execution
executed at most once; only re-execution of a terminal id leaves the
claimed transition relation. -/
theorem c9_status_assignments (fs : StepFuns) (wid : Nat)
    (initial : AgentState) (now : Nat) (e : EngineState) :
    ((execute_workflow fs wid initial now e).2.2 = [] ∨
      (execute_workflow fs wid initial now e).2.2 =
        [WStatus.running, WStatus.completed] ∨
      (execute_workflow fs wid initial now e).2.2 =
        [WStatus.running, WStatus.failed]) ∧
    chainOK (WStatus.pending :: (execute_workflow fs wid initial now e).2.2) = true ∧
    (∀ ops : List EngOp, noTimeoutInv (runEng ops)) := by
  have hforms : (execute_workflow fs wid initial now e).2.2 = [] ∨
      (execute_workflow fs wid initial now e).2.2 =
        [WStatus.running, WStatus.completed] ∨
      (execute_workflow fs wid initial now e).2.2 =
        [WStatus.running, WStatus.failed] := by
    unfold execute_workflow
    cases hg : getEntry e.workflows wid with
    | none => exact Or.inl rfl
    | some w0 =>
      rcases hp1 : execute_step wid "perception" { initial with workflow_id := some wid }
          fs.perception now (setWStatus wid WStatus.running e) with ⟨e2, r1⟩
      simp only [hp1]
      cases r1 with
      | error m => exact Or.inr (Or.inr rfl)
      | ok s1 =>
        rcases hp2 : execute_step wid "analysis" s1 fs.analysis now e2 with ⟨e3, r2⟩
        simp only [hp2]
        cases r2 with
        | error m => exact Or.inr (Or.inr rfl)
        | ok s2 =>
          rcases hp3 : execute_step wid "intervention" s2 fs.intervention now e3
            with ⟨e4, r3⟩
          simp only [hp3]
          cases r3 with
          | error m => exact Or.inr (Or.inr rfl)
          | ok s3 =>
            by_cases hsf : should_get_feedback s3 = true
            · simp only [hsf, if_true]
              rcases hp4 : execute_step wid "feedback" s3 fs.feedback now e4
                with ⟨e5, r4⟩
              cases r4 with
              | error m => exact Or.inr (Or.inr rfl)
              | ok s4 => exact Or.inr (Or.inl rfl)
            · have hsf' : should_get_feedback s3 = false := by
                revert hsf
                cases should_get_feedback s3 <;> simp
              simp only [hsf', Bool.false_eq_true, if_false]
              exact Or.inr (Or.inl trivial)
  refine ⟨hforms, ?_, fun ops => runEng_no_timeout ops⟩
  rcases hforms with h | h | h <;> rw [h] <;> decide

/-- Witness for the amended C9 at concrete inputs: the first execution of
workflow 0 assigns RUNNING then COMPLETED, and after a create operation
the stored record is not TIMEOUT. -/
theorem c9_status_assignments_witness :
    ((execute_workflow (defaultFuns 0) 0 cst 0 ce_e1).2.2 = [] ∨
      (execute_workflow (defaultFuns 0) 0 cst 0 ce_e1).2.2 =
        [WStatus.running, WStatus.completed] ∨
      (execute_workflow (defaultFuns 0) 0 cst 0 ce_e1).2.2 =
        [WStatus.running, WStatus.failed]) ∧
    noTimeoutInv (runEng [EngOp.create "u1" 0]) :=
  ⟨(c9_status_assignments (defaultFuns 0) 0 cst 0 ce_e1).1,
   (c9_status_assignments (defaultFuns 0) 0 cst 0 ce_e1).2.2 [EngOp.create "u1" 0]⟩

/-- C7: the event history stays at no more than 1000 events after any
sequence of dispatcher operations; `emit` always returns the new event's
id, the new event is the last history entry, and when the cap would be
exceeded exactly the oldest entry is evicted (pop at index 0), otherwise
the event is appended with nothing evicted. -/
theorem c7_history_bounded (hb : HandlerEnv) :
    (∀ ops : List DispOp, (runDisp hb ops).event_history.length ≤ 1000) ∧
    (∀ (s : DispState) (t : String) (p : Payload) (src : String)
        (priority : Int) (now : Nat),
      (emit t p src priority now s).1 = s.next_id ∧
      (emit t p src priority now s).2.event_history.getLast? = some
        { event_id := s.next_id, event_type := t, payload := p, source := src,
          priority := priority, timestamp := now, processed := false } ∧
      (s.event_history.length ≤ 1000 →
        (emit t p src priority now s).2.event_history.length ≤ 1000) ∧
      (s.event_history.length + 1 > 1000 →
        (emit t p src priority now s).2.event_history =
          (s.event_history ++
            [({ event_id := s.next_id, event_type := t, payload := p,
                source := src, priority := priority, timestamp := now,
                processed := false } : Event)]).drop 1) ∧
      (s.event_history.length + 1 ≤ 1000 →
        (emit t p src priority now s).2.event_history =
          s.event_history ++
            [({ event_id := s.next_id, event_type := t, payload := p,
                source := src, priority := priority, timestamp := now,
                processed := false } : Event)])) := by
  have hemit : ∀ (s : DispState) (t : String) (p : Payload) (src : String)
      (priority : Int) (now : Nat),
      s.event_history.length ≤ 1000 →
      (emit t p src priority now s).2.event_history.length ≤ 1000 := by
    intro s t p src priority now h
    simp only [emit]
    by_cases hc : (s.event_history.length + 1 > 1000)
    · rw [if_pos (by simpa using hc)]
      simp only [List.length_drop, List.length_append, List.length_singleton]
      omega
    · rw [if_neg (by simpa using hc)]
      simp only [List.length_append, List.length_singleton]
      omega
  constructor
  · intro ops
    have hstep : ∀ (s : DispState) (op : DispOp),
        s.event_history.length ≤ 1000 →
        (dispStep hb s op).event_history.length ≤ 1000 := by
      intro s op h
      cases op with
      | sub t hh => exact h
      | unsub t hh => exact h
      | pub t p src priority now => exact hemit s t p src priority now h
      | proc =>
        show (process_one hb s).1.event_history.length ≤ 1000
        by_cases hr : s.is_running = true
        · cases hq : s.event_queue with
          | nil =>
            simp only [process_one, hr, hq, if_true]
            exact h
          | cons ev rest =>
            simp only [process_one, hr, hq, if_true]
            simpa [markProcessed] using h
        · simp only [process_one, if_neg hr]
          exact h
      | start now =>
        show (dispStart now s).event_history.length ≤ 1000
        by_cases hr : s.is_running = true
        · simp only [dispStart, hr, if_true]
          exact h
        · simp only [dispStart, if_neg hr]
          exact hemit _ _ _ _ _ _ h
      | stop now =>
        show (dispStop now s).event_history.length ≤ 1000
        by_cases hr : s.is_running = true
        · simp only [dispStop, hr, if_true]
          exact hemit _ _ _ _ _ _ h
        · simp only [dispStop, if_neg hr]
          exact h
    have hfold : ∀ (l : List DispOp) (s : DispState),
        s.event_history.length ≤ 1000 →
        (l.foldl (dispStep hb) s).event_history.length ≤ 1000 := by
      intro l
      induction l with
      | nil => intro s h; exact h
      | cons op rest ih =>
        intro s h
        exact ih _ (hstep s op h)
    exact hfold ops initDisp (by decide)
  · intro s t p src priority now
    refine ⟨rfl, ?_, hemit s t p src priority now, ?_, ?_⟩
    · simp only [emit]
      by_cases hc : (s.event_history.length + 1 > 1000)
      · rw [if_pos (by simpa using hc)]
        have hlen : 1 ≤ s.event_history.length := by omega
        rw [List.drop_append_of_le_length hlen, List.getLast?_concat]
      · rw [if_neg (by simpa using hc), List.getLast?_concat]
    · intro hc
      simp only [emit]
      rw [if_pos (by simpa using hc)]
    · intro hc
      simp only [emit]
      rw [if_neg (by simp only [List.length_append, List.length_singleton]; omega)]

/-- Witness for C7 at concrete inputs: the bound holds after a concrete
operation sequence, and a concrete emit on `cd_s` (history length 2)
returns id 2, keeps the bound, and appends without eviction. -/
theorem c7_history_bounded_witness :
    (runDisp cd_hb [DispOp.start 0, DispOp.pub "t" [] "u" 0 1,
      DispOp.proc, DispOp.stop 2]).event_history.length ≤ 1000 ∧
    (emit "t" [] "u" 0 3 cd_s).1 = 2 ∧
    (cd_s.event_history.length ≤ 1000 →
      (emit "t" [] "u" 0 3 cd_s).2.event_history.length ≤ 1000) ∧
    (cd_s.event_history.length + 1 ≤ 1000 →
      (emit "t" [] "u" 0 3 cd_s).2.event_history =
        cd_s.event_history ++
          [({ event_id := 2, event_type := "t", payload := [], source := "u",
              priority := 0, timestamp := 3, processed := false } : Event)]) :=
  ⟨(c7_history_bounded cd_hb).1 [DispOp.start 0, DispOp.pub "t" [] "u" 0 1,
      DispOp.proc, DispOp.stop 2],
   ((c7_history_bounded cd_hb).2 cd_s "t" [] "u" 0 3).1,
   ((c7_history_bounded cd_hb).2 cd_s "t" [] "u" 0 3).2.2.1,
   ((c7_history_bounded cd_hb).2 cd_s "t" [] "u" 0 3).2.2.2.2⟩

/-- C8: for a delivered event, every matching handler (topic-specific
then wildcard) is invoked exactly once with its own outcome — a raising
handler appears in the invocation record with its error while the others
still appear with theirs — the event is marked processed in the history
regardless, and the delivery loop goes on to deliver the next queued
event to all of its matching handlers. -/
theorem c8_handler_isolation (hb : HandlerEnv) (s : DispState) (ev : Event)
    (rest : List Event) (hrun : s.is_running = true)
    (hq : s.event_queue = ev :: rest) :
    (process_one hb s).2 =
      some (ev, (matchingHandlers s ev).map (fun h => (h, hb h ev))) ∧
    (process_one hb s).1.event_queue = rest ∧
    (process_one hb s).1.subscribers = s.subscribers ∧
    (process_one hb s).1.is_running = true ∧
    (process_one hb s).1.event_history = markProcessed s.event_history ev.event_id ∧
    (∀ ev2 rest2, rest = ev2 :: rest2 →
      (process_one hb (process_one hb s).1).2 =
        some (ev2, (matchingHandlers s ev2).map (fun h => (h, hb h ev2)))) := by
  have hsimp : process_one hb s =
      ({ s with event_queue := rest,
                event_history := markProcessed s.event_history ev.event_id },
       some (ev, (matchingHandlers s ev).map (fun h => (h, hb h ev)))) := by
    simp only [process_one, hrun, hq, if_true]
  refine ⟨by rw [hsimp], by rw [hsimp], by rw [hsimp],
    by rw [hsimp]; exact hrun, by rw [hsimp], ?_⟩
  intro ev2 rest2 h2
  rw [hsimp]
  simp only [process_one, hrun, h2, if_true]
  rfl

/-- Witness for C8 at concrete inputs: in `cd_s` handler 0 (subscribed to
"t") always raises and handler 1 (wildcard) always returns; both are
invoked for the first event, and the second event is still delivered to
both. -/
theorem c8_handler_isolation_witness :
    (process_one cd_hb cd_s).2 =
      some (cd_ev1, [(0, some "boom"), (1, none)]) ∧
    (process_one cd_hb (process_one cd_hb cd_s).1).2 =
      some (cd_ev2, [(0, some "boom"), (1, none)]) :=
  ⟨(c8_handler_isolation cd_hb cd_s cd_ev1 [cd_ev2] rfl rfl).1,
   (c8_handler_isolation cd_hb cd_s cd_ev1 [cd_ev2] rfl rfl).2.2.2.2.2 cd_ev2 [] rfl⟩
